import Mathlib

/-!
# Verification of the sub-scan QR scanning session controller

Shallow embedding of `src/src/App.jsx`: the scan-event handler
(`handleScanSuccess`), the scanner lifecycle (`startScanner` /
`stopScanning`), the camera-selector fallback chain, and the
camera-permission request path (`requestCameraPermission` /
`checkSecureContext`).  Times are modelled as natural-number
milliseconds; the JS `Set` of scanned codes as a duplicate-free cons
list; React `setTimeout` auto-clear timers as a list of pending fire
times carried in the state.
-/

namespace SubScan

/-- `DEBOUNCE_TIME = 2000` (App.jsx line 20). -/
def DEBOUNCE_TIME : Nat := 2000

/-- The object stored by `setScannedData` (App.jsx lines 402-407 and
419-424): decoded text, a display timestamp, and the duplicate flag.
The opaque `raw` decode result is omitted (never inspected). -/
structure DisplayData where
  text : String
  timestamp : Nat
  isDuplicate : Bool
deriving Repr, DecidableEq

/-- One entry of the `scanHistory` list (App.jsx line 429). -/
structure HistoryEntry where
  text : String
  timestamp : Nat
  isDuplicate : Bool
deriving Repr, DecidableEq

/-- The `scanStatus` state values `'success'` / `'duplicate'`
(App.jsx line 8); `none` models the JS `null`. -/
inductive ScanStatus where
  | success
  | duplicate
deriving Repr, DecidableEq

/-- `lastScanRef.current` (App.jsx line 17): `{ code: null, timestamp: 0 }`
initially; `code` is `none` for the JS `null`. -/
structure LastScan where
  code : Option String
  timestamp : Nat
deriving Repr, DecidableEq

/-- The `Html5Qrcode` instance held in `html5QrCodeRef.current`.
`running` records whether its camera stream is open and decoding
(true once `start` has resolved, false before and after `stop`). -/
structure Scanner where
  running : Bool
deriving Repr, DecidableEq

/-- The session state of the App component: the React state hooks and
refs that the scanning logic reads and writes.  `pendingClears` holds
the fire times of every scheduled, not-yet-fired auto-clear
`setTimeout` (App.jsx lines 411-414 and 434-437). -/
structure AppState where
  isScanning : Bool
  isInitializing : Bool
  scannedData : Option DisplayData
  scanStatus : Option ScanStatus
  scanHistory : List HistoryEntry
  lastScan : LastScan
  scannedCodes : List String
  wasScanning : Bool
  handle : Option Scanner
  pendingClears : List Nat
deriving Repr, DecidableEq

/-- The initial component state (App.jsx lines 6-19). -/
def initialState : AppState :=
  { isScanning := false
    isInitializing := false
    scannedData := none
    scanStatus := none
    scanHistory := []
    lastScan := { code := none, timestamp := 0 }
    scannedCodes := []
    wasScanning := false
    handle := none
    pendingClears := [] }

/-- Classification of one raw scan event, following §3 of the spec:
`Accepted` / `Duplicate` / `Suppressed` (debounced). -/
inductive ScanOutcome where
  | Accepted (code : String)
  | Duplicate (code : String)
  | Suppressed (code : String)
deriving Repr, DecidableEq

/-- Audio/haptic feedback classes: `triggerSuccessFeedback` /
`triggerErrorFeedback` (App.jsx lines 96-105). -/
inductive Feedback where
  | success
  | error
deriving Repr, DecidableEq

/-- `handleScanSuccess(decodedText, decodedResult)` (App.jsx lines
384-439), as a pure state transformer.  Besides the new state it
reports which branch ran (as a `ScanOutcome`) and the feedback
emitted.  The debounce condition is line 389 (`lastScan.code ===
decodedText && (now - lastScan.timestamp) < DEBOUNCE_TIME`; the JS
`null === string` comparison is `none = some code`, false).  The
duplicate branch (lines 399-414) does not touch `scanHistory`; only
the new-scan branch inserts (lines 428-431, prepend then
`prev.slice(0, 9)`). -/
def handleScanSuccess (code : String) (now : Nat) (s : AppState) :
    AppState × ScanOutcome × List Feedback :=
  if s.lastScan.code = some code ∧ now - s.lastScan.timestamp < DEBOUNCE_TIME then
    (s, .Suppressed code, [])
  else
    let s1 : AppState := { s with lastScan := { code := some code, timestamp := now } }
    if code ∈ s1.scannedCodes then
      ({ s1 with
          scanStatus := some .duplicate
          scannedData := some { text := code, timestamp := now, isDuplicate := true }
          pendingClears := s1.pendingClears ++ [now + DEBOUNCE_TIME] },
       .Duplicate code, [.error])
    else
      ({ s1 with
          scannedCodes := code :: s1.scannedCodes
          scanStatus := some .success
          scannedData := some { text := code, timestamp := now, isDuplicate := false }
          scanHistory :=
            { text := code, timestamp := now, isDuplicate := false } :: s1.scanHistory.take 9
          pendingClears := s1.pendingClears ++ [now + DEBOUNCE_TIME] },
       .Accepted code, [.success])

/-- The state part of `handleScanSuccess`. -/
def handleScan (code : String) (now : Nat) (s : AppState) : AppState :=
  (handleScanSuccess code now s).1

/-- The outcome part of `handleScanSuccess`. -/
def scanOutcome (code : String) (now : Nat) (s : AppState) : ScanOutcome :=
  (handleScanSuccess code now s).2.1

/-- The feedback part of `handleScanSuccess`. -/
def scanFeedback (code : String) (now : Nat) (s : AppState) : List Feedback :=
  (handleScanSuccess code now s).2.2

/-- Body of both auto-clear `setTimeout` callbacks (App.jsx lines
411-413 and 434-436): `setScannedData(null); setScanStatus(null)`. -/
def clearDisplay (s : AppState) : AppState :=
  { s with scannedData := none, scanStatus := none }

/-- The runtime firing one pending auto-clear timer whose fire time is
`t`: the timer leaves the pending queue and its callback runs.  The
callback clears the display unconditionally — it does not check
whether the currently displayed result is the one it was scheduled
for. -/
def fireClear (t : Nat) (s : AppState) : AppState :=
  if t ∈ s.pendingClears then
    { s with scannedData := none, scanStatus := none,
             pendingClears := s.pendingClears.erase t }
  else s

/-- `stopScanning` (App.jsx lines 317-330).  If the ref is non-null
the code awaits `stop()` then `clear()` then nulls the ref; only then
does the `try` block reach `setIsScanning(false)`.  The underlying
`Html5Qrcode.stop()` resolves when the scanner is running and rejects
when it is not; a rejection jumps to the `catch`, which only sets
`wasScanningRef.current = false` (the error is logged and swallowed,
never re-thrown). -/
def stopScanning (s : AppState) : AppState :=
  match s.handle with
  | none => { s with isScanning := false, wasScanning := false }
  | some sc =>
      if sc.running then
        { s with handle := none, isScanning := false, wasScanning := false }
      else
        { s with wasScanning := false }

/-- The synchronous prefix of `startScanner` (App.jsx lines 193-194):
`new Html5Qrcode("reader")` is created (camera not yet open) and
stored in `html5QrCodeRef.current`. -/
def startScannerBegin (s : AppState) : AppState :=
  { s with handle := some { running := false } }

/-- The continuation of `startScanner` after `html5QrCode.start(...)`
resolves (App.jsx lines 269-271): the camera stream is now open on
the scanner object, then unconditionally `setIsScanning(true)`,
`setIsInitializing(false)`, `wasScanningRef.current = true`.  No
check of the current session state is made before these effects. -/
def startScannerResolve (s : AppState) : AppState :=
  { s with handle := s.handle.map (fun sc => { sc with running := true })
           isScanning := true
           isInitializing := false
           wasScanning := true }

/-- Whether an open camera stream exists (an acquired `CameraHandle`
in the spec's terms). -/
def cameraOpen (s : AppState) : Bool :=
  match s.handle with
  | some sc => sc.running
  | none => false

/-! ## The Dedup/Debounce Ledger, as the spec words it (§4.2)

`SessionMemory` and `classify` below are written from the SPEC's
precedence rules, to be compared with the source's
`handleScanSuccess`; they are the spec side of the refinement claim,
not a translation of the code. -/

/-- §3 `SessionMemory`: `{ seenCodes, lastSighting: {code, at} }`. -/
structure SessionMemory where
  seenCodes : List String
  lastCode : Option String
  lastAt : Nat
deriving Repr, DecidableEq

/-- The `SessionMemory` carried inside an `AppState`
(`scannedCodesRef` and `lastScanRef`). -/
def memOf (s : AppState) : SessionMemory :=
  { seenCodes := s.scannedCodes
    lastCode := s.lastScan.code
    lastAt := s.lastScan.timestamp }

/-- The ledger precedence exactly as §4.2 of the spec states it:
1. same code as `lastSighting` and elapsed `< 2000` ms → `Suppressed`;
2. else update `lastSighting`; code already seen → `Duplicate`;
3. else insert into `seenCodes` → `Accepted`. -/
def ledgerClassifySpec (m : SessionMemory) (code : String) (decodedAt : Nat) :
    ScanOutcome × SessionMemory :=
  if m.lastCode = some code ∧ decodedAt - m.lastAt < DEBOUNCE_TIME then
    (.Suppressed code, m)
  else
    let m1 : SessionMemory := { m with lastCode := some code, lastAt := decodedAt }
    if code ∈ m1.seenCodes then
      (.Duplicate code, m1)
    else
      (.Accepted code, { m1 with seenCodes := code :: m1.seenCodes })

/-- **C1.** For every raw scan event, the handler's classification
and its effect on the session memory coincide with the ledger
precedence of §4.2: debounce first (`Suppressed`, nothing happens),
else `lastSighting` updated and the event is `Duplicate` or
`Accepted` by membership in `seenCodes`, the latter inserting. -/
theorem c1_classification_follows_ledger (s : AppState) (code : String) (now : Nat) :
    (scanOutcome code now s, memOf (handleScan code now s)) =
      ledgerClassifySpec (memOf s) code now := by
  unfold scanOutcome handleScan handleScanSuccess ledgerClassifySpec memOf
  by_cases h : s.lastScan.code = some code ∧ now - s.lastScan.timestamp < DEBOUNCE_TIME
  · simp [h]
  · by_cases hmem : code ∈ s.scannedCodes
    · simp [h, hmem]
    · simp [h, hmem]

/-! ## C10: the debounce early return is fully effect-free -/

/-- **C10.** A debounced event is fully effect-free: when the event's
code equals `lastScan.code` and the elapsed time is strictly below
`DEBOUNCE_TIME`, `handleScanSuccess` returns early with the state
unchanged (so `lastScan`, `scannedCodes`, `scanHistory`, the
displayed result and the pending timers are all untouched), schedules
no timer and emits no feedback. -/
theorem c10_debounce_effect_free (s : AppState) (code : String) (now : Nat)
    (hcode : s.lastScan.code = some code)
    (htime : now - s.lastScan.timestamp < DEBOUNCE_TIME) :
    handleScanSuccess code now s = (s, .Suppressed code, []) := by
  unfold handleScanSuccess
  simp [hcode, htime]

/-- State after one accepted scan of `"A"` at `t = 0`. -/
def afterFirstA : AppState := handleScan "A" 0 initialState

/-- Witness for C10 at a concrete input: after `"A"` is accepted at
`t = 0`, a second sighting of `"A"` at `t = 500` is debounced and
leaves everything unchanged. -/
theorem c10_debounce_effect_free_witness :
    afterFirstA.lastScan.code = some "A" ∧
      500 - afterFirstA.lastScan.timestamp < DEBOUNCE_TIME ∧
      handleScanSuccess "A" 500 afterFirstA = (afterFirstA, .Suppressed "A", []) :=
  ⟨by decide, by decide,
    c10_debounce_effect_free afterFirstA "A" 500 (by decide) (by decide)⟩

/-! ## C9: `stopScanning` is idempotent and never an error -/

/-- **C9.** The stop operation is idempotent and never an error
(`stopScanning` is a total function: its `catch` swallows every
rejection).  When the scanner is already stopped or was never started
(`handle = none`), no decoder call is made and the operation only
(re)sets the two flags to false, so on an already-stopped state it is
the identity; invoking stop twice always leaves the same final state
as invoking it once; and from any state whose handle, if present, is
running, one stop leaves the session not scanning with the handle
released. -/
theorem c9_stop_idempotent (s : AppState) :
    (s.handle = none →
      stopScanning s = { s with isScanning := false, wasScanning := false }) ∧
    (s.handle = none → s.isScanning = false → s.wasScanning = false →
      stopScanning s = s) ∧
    stopScanning (stopScanning s) = stopScanning s ∧
    ((s.handle = none ∨ s.handle = some { running := true }) →
      (stopScanning s).isScanning = false ∧ (stopScanning s).handle = none) := by
  refine ⟨?_, ?_, ?_, ?_⟩
  · intro h
    simp [stopScanning, h]
  · intro h h1 h2
    obtain ⟨a, b, c, d, e, f, g, w, hd, p⟩ := s
    simp_all [stopScanning]
  · unfold stopScanning
    match hh : s.handle with
    | none => simp
    | some sc =>
        by_cases hr : sc.running
        · simp [hr]
        · simp [hr, hh]
  · rintro (h | h) <;> simp [stopScanning, h]

/-- Witness for C9 at a concrete input: on the initial (never
started) state, stop is a no-op that only confirms the flags; double
stop equals single stop; and the final state is not scanning with no
handle. -/
theorem c9_stop_idempotent_witness :
    stopScanning initialState = initialState ∧
      stopScanning (stopScanning initialState) = stopScanning initialState ∧
      (stopScanning initialState).isScanning = false ∧
      (stopScanning initialState).handle = none :=
  ⟨(c9_stop_idempotent initialState).2.1 rfl rfl rfl,
   (c9_stop_idempotent initialState).2.2.1,
   ((c9_stop_idempotent initialState).2.2.2 (Or.inl rfl)).1,
   ((c9_stop_idempotent initialState).2.2.2 (Or.inl rfl)).2⟩

/-! ## C4: a stale decoder-start resolution after stop -/

/-- The stale interleaving: `startScanner` runs its synchronous
prefix (scanner object created, ref assigned, camera not yet open),
the operator invokes `stopScanning` while `html5QrCode.start` is
still pending (its `stop()` rejects because the scanner is not
running, so the `catch` only clears `wasScanningRef`), and then the
decoder start resolves and runs the post-`await` continuation. -/
def staleStartAfterStop : AppState :=
  startScannerResolve (stopScanning (startScannerBegin initialState))

/-- **C4 counterexample.** The claim — that a stale decoder-start
resolution checks the current session state and applies no effects,
so the session does not end up scanning (`Active`) and no open camera
handle is leaked — is false: after stop is invoked during a pending
start, the stale resolution still marks the session scanning and
leaves the camera stream open. -/
theorem c4_stale_resolution_counterexample :
    ¬ (staleStartAfterStop.isScanning = false ∧ cameraOpen staleStartAfterStop = false) := by
  decide

/-- **C4 (amended).** The post-`await` continuation of `startScanner`
applies its effects unconditionally — it sets the session scanning
and marks it as having been scanning regardless of the current state,
with no staleness check — and in particular, after `stopScanning` is
invoked while a decoder start is pending, the stale resolution leaves
the session scanning with an open camera handle. -/
theorem c4_stale_resolution_applies_effects :
    (∀ s : AppState, (startScannerResolve s).isScanning = true ∧
      (startScannerResolve s).wasScanning = true) ∧
    staleStartAfterStop.isScanning = true ∧
    cameraOpen staleStartAfterStop = true := by
  refine ⟨fun s => ⟨rfl, rfl⟩, by decide, by decide⟩

/-! ## C2: which outcomes reach the scan history -/

/-- Run a list of `(code, time)` scan events through the handler. -/
def runScans (evts : List (String × Nat)) (s : AppState) : AppState :=
  evts.foldl (fun st e => handleScan e.1 e.2 st) s

/-- The spec's scenario: `A` at 0 ms, `A` at 500 ms, `A` at 2500 ms,
`B` at 2600 ms. -/
def c2Scenario : List (String × Nat) := [("A", 0), ("A", 500), ("A", 2500), ("B", 2600)]

/-- The state after the four scenario events, from a fresh session. -/
def c2Final : AppState := runScans c2Scenario initialState

/-- **C2 counterexample.** The claim — that every `Duplicate` outcome
is inserted into the history, so the scenario leaves exactly three
entries `[B(Accepted), A(Duplicate), A(Accepted)]` — is false: the
third event classifies as `Duplicate` but the duplicate branch of
`handleScanSuccess` never touches `scanHistory`, so the scenario
leaves exactly two entries, both from `Accepted` outcomes. -/
theorem c2_duplicate_not_in_history_counterexample :
    scanOutcome "A" 2500 (runScans [("A", 0), ("A", 500)] initialState) = .Duplicate "A" ∧
      (handleScan "A" 2500 (runScans [("A", 0), ("A", 500)] initialState)).scanHistory =
        (runScans [("A", 0), ("A", 500)] initialState).scanHistory ∧
      c2Final.scanHistory =
        [{ text := "B", timestamp := 2600, isDuplicate := false },
         { text := "A", timestamp := 0, isDuplicate := false }] ∧
      c2Final.scanHistory.length ≠ 3 := by
  decide

/-- **C2 (amended).** While the session is active, only `Accepted`
outcomes are inserted into `ScanHistory`; `Duplicate` and
`Suppressed` outcomes leave it unchanged.  In particular, after the
event sequence `A` at 0 ms, `A` at 500 ms, `A` at 2500 ms, `B` at
2600 ms, the history contains exactly two entries, most-recent-first:
`B` as `Accepted` and `A` as `Accepted`. -/
theorem c2_history_gets_accepted_only :
    (∀ (s : AppState) (c : String) (t : Nat),
      (scanOutcome c t s = .Accepted c →
        (handleScan c t s).scanHistory =
          { text := c, timestamp := t, isDuplicate := false } :: s.scanHistory.take 9) ∧
      (scanOutcome c t s = .Duplicate c → (handleScan c t s).scanHistory = s.scanHistory) ∧
      (scanOutcome c t s = .Suppressed c → (handleScan c t s).scanHistory = s.scanHistory)) ∧
    c2Final.scanHistory =
      [{ text := "B", timestamp := 2600, isDuplicate := false },
       { text := "A", timestamp := 0, isDuplicate := false }] ∧
    c2Final.scanHistory.length = 2 := by
  refine ⟨fun s c t => ?_, by decide, by decide⟩
  unfold scanOutcome handleScan handleScanSuccess
  by_cases h : s.lastScan.code = some c ∧ t - s.lastScan.timestamp < DEBOUNCE_TIME
  · simp [h]
  · by_cases hmem : c ∈ s.scannedCodes
    · simp [h, hmem]
    · simp [h, hmem]

/-- Witness for C2: each implication of the general part discharged
at a concrete input — an accepted first sighting of `"A"`, a
duplicate re-sighting at 2500 ms, and a suppressed re-sighting at
500 ms. -/
theorem c2_history_gets_accepted_only_witness :
    (handleScan "A" 0 initialState).scanHistory =
      [{ text := "A", timestamp := 0, isDuplicate := false }] ∧
    (handleScan "A" 2500 (handleScan "A" 0 initialState)).scanHistory =
      (handleScan "A" 0 initialState).scanHistory ∧
    (handleScan "A" 500 (handleScan "A" 0 initialState)).scanHistory =
      (handleScan "A" 0 initialState).scanHistory :=
  ⟨(c2_history_gets_accepted_only.1 initialState "A" 0).1 (by decide),
   (c2_history_gets_accepted_only.1 (handleScan "A" 0 initialState) "A" 2500).2.1 (by decide),
   (c2_history_gets_accepted_only.1 (handleScan "A" 0 initialState) "A" 500).2.2 (by decide)⟩

/-! ## C3: no session-reset operation clears the session memory -/

/-- Accept `"A"`, then invoke the stop operation. -/
def c3AfterStop : AppState := stopScanning (handleScan "A" 0 initialState)

/-- After the stop, start the scanner again (synchronous prefix plus
resolved decoder start). -/
def c3AfterRestart : AppState := startScannerResolve (startScannerBegin c3AfterStop)

/-- **C3 counterexample.** The claim — that a session-reset operation
clears both `seenCodes` and `ScanHistory`, after which previously
accepted codes classify as `Accepted` again — is false: `stopScanning`
(the only stop/reset entry point) leaves both untouched, and after
stopping and restarting, the previously accepted code `"A"`
classifies as `Duplicate`, not `Accepted`, on its next sighting. -/
theorem c3_no_reset_counterexample :
    c3AfterStop.scannedCodes = ["A"] ∧
      c3AfterStop.scanHistory = [{ text := "A", timestamp := 0, isDuplicate := false }] ∧
      scanOutcome "A" 5000 c3AfterRestart = .Duplicate "A" := by
  decide

/-- **C3 (amended).** No operation of the program clears `seenCodes`
or `ScanHistory`: `stopScanning`, the scanner (re)start steps and the
auto-clear timers all leave both untouched, and the scan handler only
ever grows `seenCodes` by at most the scanned code.  Consequently a
code accepted before a stop classifies as `Duplicate`, not
`Accepted`, on its next sighting after a restart; `seenCodes` is
cleared neither explicitly nor automatically for the lifetime of the
component. -/
theorem c3_memory_never_cleared :
    (∀ s : AppState,
      (stopScanning s).scannedCodes = s.scannedCodes ∧
      (stopScanning s).scanHistory = s.scanHistory ∧
      (startScannerBegin s).scannedCodes = s.scannedCodes ∧
      (startScannerBegin s).scanHistory = s.scanHistory ∧
      (startScannerResolve s).scannedCodes = s.scannedCodes ∧
      (startScannerResolve s).scanHistory = s.scanHistory ∧
      (∀ t : Nat, (fireClear t s).scannedCodes = s.scannedCodes ∧
        (fireClear t s).scanHistory = s.scanHistory) ∧
      (∀ (c : String) (t : Nat),
        (handleScan c t s).scannedCodes = s.scannedCodes ∨
        (handleScan c t s).scannedCodes = c :: s.scannedCodes)) ∧
    scanOutcome "A" 5000 c3AfterRestart = .Duplicate "A" := by
  refine ⟨fun s => ?_, by decide⟩
  refine ⟨?_, ?_, rfl, rfl, rfl, rfl, fun t => ?_, fun c t => ?_⟩
  · unfold stopScanning
    match s.handle with
    | none => rfl
    | some sc => by_cases hr : sc.running <;> simp [hr]
  · unfold stopScanning
    match s.handle with
    | none => rfl
    | some sc => by_cases hr : sc.running <;> simp [hr]
  · unfold fireClear
    by_cases ht : t ∈ s.pendingClears <;> simp [ht]
  · unfold handleScan handleScanSuccess
    by_cases h : s.lastScan.code = some c ∧ t - s.lastScan.timestamp < DEBOUNCE_TIME
    · simp [h]
    · by_cases hmem : c ∈ s.scannedCodes
      · simp [h, hmem]
      · simp [h, hmem]

/-! ## C6: auto-clear timers are never cancelled -/

/-- `"A"` accepted at 0 ms, then `"B"` accepted at 1500 ms while the
result for `"A"` is still displayed. -/
def twoScansOverlap : AppState := handleScan "B" 1500 (handleScan "A" 0 initialState)

/-- **C6 counterexample.** The claim — that when a new outcome
arrives while a result is displayed, the pending auto-clear timer is
cancelled or superseded (not merely left running), so an old timer
never clears a newer result early — is false: after `"B"` is
displayed at 1500 ms, the timer scheduled for `"A"` (due at 2000 ms)
is still pending, and firing it clears the displayed `"B"` result at
2000 ms, well before `"B"`'s own window ends at 3500 ms. -/
theorem c6_timer_not_cancelled_counterexample :
    twoScansOverlap.scannedData =
      some { text := "B", timestamp := 1500, isDuplicate := false } ∧
      2000 ∈ twoScansOverlap.pendingClears ∧
      (fireClear 2000 twoScansOverlap).scannedData = none ∧
      2000 < 1500 + 2000 := by
  decide

/-- **C6 (amended).** A new classified outcome schedules a fresh
2000 ms auto-clear timer but never cancels or supersedes the pending
ones — `handleScanSuccess` only ever appends to the pending-timer
queue — so two timers can be live at once, and an old timer clears a
newer result early: in the concrete overlap, after `"B"` is displayed
at 1500 ms both timers (due 2000 ms and 3500 ms) are pending, and the
old one clears the display at 2000 ms. -/
theorem c6_timers_accumulate :
    (∀ (s : AppState) (c : String) (t : Nat),
      (handleScan c t s).pendingClears = s.pendingClears ∨
      (handleScan c t s).pendingClears = s.pendingClears ++ [t + DEBOUNCE_TIME]) ∧
    twoScansOverlap.pendingClears = [2000, 3500] ∧
    (fireClear 2000 twoScansOverlap).scannedData = none ∧
    (fireClear 2000 twoScansOverlap).scanStatus = none := by
  refine ⟨fun s c t => ?_, by decide, by decide, by decide⟩
  unfold handleScan handleScanSuccess
  by_cases h : s.lastScan.code = some c ∧ t - s.lastScan.timestamp < DEBOUNCE_TIME
  · simp [h]
  · by_cases hmem : c ∈ s.scannedCodes
    · simp [h, hmem]
    · simp [h, hmem]

/-! ## C5: the scan-history invariant over all reachable states -/

/-- States reachable from the initial component state by any
interleaving of the modelled operations: scan events, stop, the two
scanner-start steps, and auto-clear timer firings. -/
inductive Reachable : AppState → Prop where
  | init : Reachable initialState
  | scan (c : String) (t : Nat) {s : AppState} :
      Reachable s → Reachable (handleScan c t s)
  | stop {s : AppState} : Reachable s → Reachable (stopScanning s)
  | scannerBegin {s : AppState} : Reachable s → Reachable (startScannerBegin s)
  | scannerResolve {s : AppState} : Reachable s → Reachable (startScannerResolve s)
  | fire (t : Nat) {s : AppState} : Reachable s → Reachable (fireClear t s)

/-- Either a scan leaves the history unchanged, or it prepends the
new entry to the first nine old ones (App.jsx lines 428-431). -/
theorem handleScan_scanHistory_cases (s : AppState) (c : String) (t : Nat) :
    (handleScan c t s).scanHistory = s.scanHistory ∨
      (handleScan c t s).scanHistory =
        { text := c, timestamp := t, isDuplicate := false } :: s.scanHistory.take 9 := by
  unfold handleScan handleScanSuccess
  by_cases h : s.lastScan.code = some c ∧ t - s.lastScan.timestamp < DEBOUNCE_TIME
  · simp [h]
  · by_cases hmem : c ∈ s.scannedCodes
    · simp [h, hmem]
    · simp [h, hmem]

/-- `stopScanning` never touches the history. -/
theorem stopScanning_scanHistory (s : AppState) :
    (stopScanning s).scanHistory = s.scanHistory := by
  unfold stopScanning
  match s.handle with
  | none => rfl
  | some sc => by_cases hr : sc.running <;> simp [hr]

/-- Firing an auto-clear timer never touches the history. -/
theorem fireClear_scanHistory (t : Nat) (s : AppState) :
    (fireClear t s).scanHistory = s.scanHistory := by
  unfold fireClear
  by_cases ht : t ∈ s.pendingClears <;> simp [ht]

/-- **C5.** In every reachable state the history holds at most 10
entries; every insertion prepends (most-recent-first order); a
`Suppressed` outcome leaves the history unchanged, and the history
changes only when the outcome is `Accepted`, so no `Suppressed` (or
`Duplicate`) outcome ever appears as a history entry. -/
theorem c5_history_invariant :
    (∀ s : AppState, Reachable s → s.scanHistory.length ≤ 10) ∧
    (∀ (s : AppState) (c : String) (t : Nat),
      (handleScan c t s).scanHistory = s.scanHistory ∨
      (handleScan c t s).scanHistory =
        { text := c, timestamp := t, isDuplicate := false } :: s.scanHistory.take 9) ∧
    (∀ (s : AppState) (c : String) (t : Nat),
      scanOutcome c t s = .Suppressed c → (handleScan c t s).scanHistory = s.scanHistory) ∧
    (∀ (s : AppState) (c : String) (t : Nat),
      (handleScan c t s).scanHistory ≠ s.scanHistory → scanOutcome c t s = .Accepted c) :=
  by
  refine ⟨?_, handleScan_scanHistory_cases, ?_, ?_⟩
  · intro s hr
    induction hr with
    | init => simp [initialState]
    | scan c t _ ih =>
        rcases handleScan_scanHistory_cases _ c t with h | h
        · rw [h]; exact ih
        · rw [h]
          simp only [List.length_cons, List.length_take]
          exact Nat.add_le_add_right (Nat.min_le_left _ _) 1
    | stop _ ih => rw [stopScanning_scanHistory]; exact ih
    | scannerBegin _ ih => exact ih
    | scannerResolve _ ih => exact ih
    | fire t _ ih => rw [fireClear_scanHistory]; exact ih
  · intro s c t h
    unfold scanOutcome handleScanSuccess at h
    unfold handleScan handleScanSuccess
    by_cases hc : s.lastScan.code = some c ∧ t - s.lastScan.timestamp < DEBOUNCE_TIME
    · simp [hc]
    · by_cases hmem : c ∈ s.scannedCodes <;> simp [hc, hmem] at h
  · intro s c t h
    unfold handleScan handleScanSuccess at h
    unfold scanOutcome handleScanSuccess
    by_cases hc : s.lastScan.code = some c ∧ t - s.lastScan.timestamp < DEBOUNCE_TIME
    · simp [hc] at h
    · by_cases hmem : c ∈ s.scannedCodes
      · simp [hc, hmem] at h
      · simp [hc, hmem]

/-- Witness for C5 at concrete inputs: the bound holds at the
(reachable) initial state; a suppressed re-sighting at 500 ms leaves
the history unchanged; and a history change at the first sighting
comes from an `Accepted` outcome. -/
theorem c5_history_invariant_witness :
    initialState.scanHistory.length ≤ 10 ∧
      (handleScan "A" 500 (handleScan "A" 0 initialState)).scanHistory =
        (handleScan "A" 0 initialState).scanHistory ∧
      scanOutcome "A" 0 initialState = .Accepted "A" :=
  ⟨c5_history_invariant.1 initialState Reachable.init,
   c5_history_invariant.2.2.1 (handleScan "A" 0 initialState) "A" 500 (by decide),
   c5_history_invariant.2.2.2 initialState "A" 0 (by decide)⟩

/-! ## C7: insecure-context failure is raised before any camera access -/

/-- `checkSecureContext` (App.jsx lines 107-117): HTTPS, or a
loopback hostname (`localhost` / `127.0.0.1`). -/
def checkSecureContext (protocol hostname : String) : Bool :=
  let isLocalhost := hostname == "localhost" || hostname == "127.0.0.1"
  let isHTTPS := protocol == "https:"
  isHTTPS || isLocalhost

/-- JS `String.prototype.split(':')` on the character list: splits at
every `':'`, keeping empty segments. -/
def splitOnColonChars : List Char → List (List Char)
  | [] => [[]]
  | c :: cs =>
      if c = ':' then [] :: splitOnColonChars cs
      else
        match splitOnColonChars cs with
        | [] => [[c]]
        | h :: t => (c :: h) :: t

/-- JS `message.split(':')` as a list of strings. -/
def splitOnColon (s : String) : List String :=
  (splitOnColonChars s.data).map String.mk

/-- The message of the error thrown on an insecure context (App.jsx
line 131): `` `HTTPS_REQUIRED:${protocol}:${hostname}` ``. -/
def httpsRequiredMessage (protocol hostname : String) : String :=
  "HTTPS_REQUIRED:" ++ protocol ++ ":" ++ hostname

/-- The error the `catch` block stores for that message (App.jsx
lines 166-169): it splits the message on `':'`, destructures
`[, protocol, hostname]`, and sets `` `HTTPS_REQUIRED:${hostname}` ``.
Because the real `window.location.protocol` itself ends in `':'`, the
destructured element is the empty segment between the two colons, so
the stored string is just `"HTTPS_REQUIRED:"`. -/
def httpsRequiredError (protocol hostname : String) : String :=
  "HTTPS_REQUIRED:" ++ (splitOnColon (httpsRequiredMessage protocol hostname)).getD 2 ""

/-- `setError` value of the permission-denied branch (App.jsx
line 172). -/
def permissionDeniedMessage : String :=
  "Camera permission denied. Please allow camera access in your browser settings and try again."

/-- Failure modes of `navigator.mediaDevices.getUserMedia`, keyed by
the `err.name` values the `catch` block inspects (App.jsx lines
170-177). -/
inductive GumError where
  | notAllowed
  | notFound
  | otherFailure (msg : String)
deriving Repr, DecidableEq

/-- The browser environment `requestCameraPermission` runs against:
the location's protocol and hostname, whether
`navigator.mediaDevices.getUserMedia` exists, and what a
`getUserMedia` call would return. -/
structure PermEnv where
  protocol : String
  hostname : String
  mediaSupported : Bool
  gum : Except GumError Unit

/-- Observable result of one `requestCameraPermission` call: the
`setError` value, the `setPermissionStatus` value if it was called,
whether `getUserMedia` was invoked (camera access attempted), and
whether control reached `startScanner`. -/
structure PermResult where
  error : Option String
  setPermission : Option String
  gumCalled : Bool
  scannerStarted : Bool
deriving Repr, DecidableEq

/-- `requestCameraPermission` (App.jsx lines 120-179): the secure
context is checked first and an insecure one throws before
`getUserMedia` is reached; the `catch` block classifies the error by
message or name.  The audio-context, delay, and UI-flag effects are
not carried here. -/
def requestCameraPermission (env : PermEnv) : PermResult :=
  if checkSecureContext env.protocol env.hostname = false then
    { error := some (httpsRequiredError env.protocol env.hostname)
      setPermission := some "denied", gumCalled := false, scannerStarted := false }
  else if env.mediaSupported = false then
    { error := some "Camera not supported. Please use a device with a camera."
      setPermission := none, gumCalled := false, scannerStarted := false }
  else
    match env.gum with
    | .ok _ =>
        { error := none, setPermission := some "granted"
          gumCalled := true, scannerStarted := true }
    | .error .notAllowed =>
        { error := some permissionDeniedMessage, setPermission := some "denied"
          gumCalled := true, scannerStarted := false }
    | .error .notFound =>
        { error := some "No camera found. Please use a device with a camera."
          setPermission := none, gumCalled := true, scannerStarted := false }
    | .error (.otherFailure msg) =>
        { error := some (if msg = "" then "Failed to access camera. Please check permissions." else msg)
          setPermission := none, gumCalled := true, scannerStarted := false }

/-- The `HTTPS_REQUIRED:` error string never coincides with the
permission-denied message, whatever the split produces. -/
theorem https_required_ne_denied (x : String) :
    "HTTPS_REQUIRED:" ++ x ≠ permissionDeniedMessage := by
  intro h
  have h2 := congrArg String.data h
  rw [String.data_append] at h2
  have hd : ("HTTPS_REQUIRED:").data =
      ['H', 'T', 'T', 'P', 'S', '_', 'R', 'E', 'Q', 'U', 'I', 'R', 'E', 'D', ':'] := rfl
  rw [hd] at h2
  simp [permissionDeniedMessage, String.data] at h2

/-- **C7.** On an insecure, non-loopback origin the permission
request fails with the `HTTPS_REQUIRED` (insecure-context) error
before any camera access is attempted (`getUserMedia` is never
called), whereas a denial on a secure origin calls `getUserMedia` and
stores the permission-denied message; the two error strings are
distinct for every protocol and hostname. -/
theorem c7_insecure_context_before_camera :
    (∀ env : PermEnv, checkSecureContext env.protocol env.hostname = false →
      (requestCameraPermission env).gumCalled = false ∧
      (requestCameraPermission env).scannerStarted = false ∧
      (requestCameraPermission env).error =
        some (httpsRequiredError env.protocol env.hostname) ∧
      (requestCameraPermission env).setPermission = some "denied") ∧
    (∀ env : PermEnv, checkSecureContext env.protocol env.hostname = true →
      env.mediaSupported = true → env.gum = .error .notAllowed →
      (requestCameraPermission env).gumCalled = true ∧
      (requestCameraPermission env).error = some permissionDeniedMessage) ∧
    (∀ protocol hostname : String,
      httpsRequiredError protocol hostname ≠ permissionDeniedMessage) := by
  refine ⟨?_, ?_, ?_⟩
  · intro env h
    simp [requestCameraPermission, h]
  · intro env h hm hg
    simp [requestCameraPermission, h, hm, hg]
  · intro protocol hostname
    exact https_required_ne_denied _

/-- Witness for C7 at concrete inputs: `http:` on a LAN address is
insecure and never reaches the camera, while a denied `getUserMedia`
on an HTTPS origin yields the distinct permission-denied message. -/
theorem c7_insecure_context_before_camera_witness :
    checkSecureContext "http:" "192.168.1.7" = false ∧
      (requestCameraPermission
        { protocol := "http:", hostname := "192.168.1.7",
          mediaSupported := true, gum := .error .notAllowed }).gumCalled = false ∧
      (requestCameraPermission
        { protocol := "https:", hostname := "example.com",
          mediaSupported := true, gum := .error .notAllowed }).error =
        some permissionDeniedMessage ∧
      httpsRequiredError "http:" "192.168.1.7" ≠ permissionDeniedMessage :=
  ⟨by decide,
   (c7_insecure_context_before_camera.1 _ (by decide)).1,
   (c7_insecure_context_before_camera.2.1 _ (by decide) rfl rfl).2,
   c7_insecure_context_before_camera.2.2 "http:" "192.168.1.7"⟩

/-! ## C8: the camera-selector fallback chain -/

/-- The three camera selectors `startScanner` can pass to
`Html5Qrcode.start` (App.jsx lines 216, 235, 252): the
environment-facing object form `{ facingMode: "environment" }`, the
generic string form `"environment"`, and the user-facing object form
`{ facingMode: "user" }`. -/
inductive CameraSelector where
  | envFacingObject
  | envString
  | userFacingObject
deriving Repr, DecidableEq

/-- The fallback order the spec describes. -/
def cameraFallbackOrder : List CameraSelector :=
  [.envFacingObject, .envString, .userFacingObject]

/-- The nested `try`/`catch` chain of `startScanner` (App.jsx lines
214-267), abstracted over which selectors the decoder can start with
(`ok`): the selector the scanner ends up running with, or `none` when
all three attempts fail (falling to the outer `catch`). -/
def startCameraChain (ok : CameraSelector → Bool) : Option CameraSelector :=
  if ok .envFacingObject then some .envFacingObject
  else if ok .envString then some .envString
  else if ok .userFacingObject then some .userFacingObject
  else none

/-- The sequence of `Html5Qrcode.start` attempts the nested
`try`/`catch` chain makes, in order. -/
def startCameraAttempts (ok : CameraSelector → Bool) : List CameraSelector :=
  if ok .envFacingObject then [.envFacingObject]
  else if ok .envString then [.envFacingObject, .envString]
  else [.envFacingObject, .envString, .userFacingObject]

/-- **C8.** The chain attempts the selectors in the strict order
rear-camera object form, generic string form, user-facing form,
stopping at the first success: the selector it runs with is the first
successful one of `cameraFallbackOrder`, the attempt sequence is the
failing ones tried in order followed by the first success, the rear
camera is always attempted first, and a later selector is attempted
only if every earlier one failed. -/
theorem c8_camera_fallback_chain (ok : CameraSelector → Bool) :
    startCameraChain ok = cameraFallbackOrder.find? ok ∧
    startCameraAttempts ok =
      cameraFallbackOrder.takeWhile (fun sel => !ok sel) ++
        (cameraFallbackOrder.dropWhile (fun sel => !ok sel)).take 1 ∧
    CameraSelector.envFacingObject ∈ startCameraAttempts ok ∧
    (CameraSelector.envString ∈ startCameraAttempts ok → ok .envFacingObject = false) ∧
    (CameraSelector.userFacingObject ∈ startCameraAttempts ok →
      ok .envFacingObject = false ∧ ok .envString = false) := by
  by_cases h1 : ok .envFacingObject <;> by_cases h2 : ok .envString <;>
    by_cases h3 : ok .userFacingObject <;>
    simp_all [startCameraChain, startCameraAttempts, cameraFallbackOrder,
      List.find?, List.takeWhile, List.dropWhile]

/-- Witness for C8 at a concrete input: when only the string form can
start, the chain runs with it, the rear-camera object form was
attempted (and failed) first, and the user-facing form is never
attempted. -/
theorem c8_camera_fallback_chain_witness :
    startCameraChain (fun sel => sel == .envString) = some .envString ∧
      (fun sel : CameraSelector => sel == .envString) .envFacingObject = false ∧
      CameraSelector.envFacingObject ∈ startCameraAttempts (fun sel => sel == .envString) :=
  ⟨by decide,
   (c8_camera_fallback_chain (fun sel => sel == .envString)).2.2.2.1 (by decide),
   (c8_camera_fallback_chain (fun sel => sel == .envString)).2.2.1⟩

end SubScan
